import Mathlib

/-!
Shallow embedding of the experiment-manager core of this repository
(`src/models.py`, `src/database.py`, `src/ai_service.py`, `src/app.py`)
and proofs of the frozen claims about it.

Conventions of the embedding:
* database identifiers are `Nat` (opaque, server-assigned, monotonically
  issued — modelled by `Store.nextId`);
* `created_at`/`updated_at` timestamps are never consulted by the code the
  claims are about, so the record types omit them; the insertion order of
  the store's lists models the `order("created_at")` result order;
* Python `float` temperature is modelled as `ℚ` — the only float fact the
  code depends on is truthiness (`t or default` falls back exactly when
  `t` is `None` or equals `0.0`), which `ℚ` captures exactly;
* fallible operations return `Option`; the empty dict `{}` returned by the
  generation client is `none`;
* the network (Gemini `generate_content`) is an explicit function argument
  `llm : GenRequest → Option String` (`none` = exception or empty
  response); everything downstream of it is embedded concretely.
-/

set_option maxRecDepth 100000

namespace PocFollowup

/-! ### Python string helpers

Python `str` operations used by the source, over `List Char` so that they
reduce well in the kernel.  `pyIsSpace` is the whitespace set of Python's
`str.strip()`. -/

def pyIsSpace (c : Char) : Bool :=
  c = ' ' || c = '\t' || c = '\n' || c = '\r' || c = '\x0b' || c = '\x0c'

def stripChars (l : List Char) : List Char :=
  ((l.dropWhile pyIsSpace).reverse.dropWhile pyIsSpace).reverse

/-- Python `s.strip()`. -/
def pyStrip (s : String) : String := ⟨stripChars s.data⟩

/-- Python `s.startswith(p)`. -/
def pyStartsWith (s p : String) : Bool := p.data.isPrefixOf s.data

/-- Python `s.endswith(p)`. -/
def pyEndsWith (s p : String) : Bool := p.data.isSuffixOf s.data

/-- Python `s[n:]`. -/
def pyDropLeft (s : String) (n : Nat) : String := ⟨s.data.drop n⟩

/-- Python `s[:-n]` (for `0 < n ≤ len(s)`). -/
def pyDropRight (s : String) (n : Nat) : String := ⟨s.data.take (s.data.length - n)⟩

/-- Python `s.split('\n')` on the character list. -/
def splitNlChars : List Char → List (List Char)
  | [] => [[]]
  | c :: rest =>
    let r := splitNlChars rest
    if c = '\n' then [] :: r
    else
      match r with
      | [] => [[c]]
      | h :: t => (c :: h) :: t

/-- Python `s.split('\n')`. -/
def pySplitLines (s : String) : List String := (splitNlChars s.data).map (fun l => ⟨l⟩)

/-! ### JSON values and `json.loads`

A model of Python's `json.loads`, used by `_parse_structured_response`.
Escape handling covers the JSON escapes; a `\uXXXX` escape in the
surrogate range falls back to `Char.ofNat`'s default, which no input in
this development exercises. -/

inductive JValue where
  | jstr (s : String)
  | jnum (q : ℚ)
  | jbool (b : Bool)
  | jnull
  | jarr (xs : List JValue)
  | jobj (fields : List (String × JValue))

def jsonWs (c : Char) : Bool := c = ' ' || c = '\t' || c = '\n' || c = '\r'

def skipWs (l : List Char) : List Char := l.dropWhile jsonWs

def hexVal (c : Char) : Option Nat :=
  if '0' ≤ c ∧ c ≤ '9' then some (c.toNat - 48)
  else if 'a' ≤ c ∧ c ≤ 'f' then some (c.toNat - 87)
  else if 'A' ≤ c ∧ c ≤ 'F' then some (c.toNat - 55)
  else none

def parseJStrChars : List Char → Option (List Char × List Char)
  | [] => none
  | '"' :: rest => some ([], rest)
  | '\\' :: '"' :: rest => (parseJStrChars rest).map (fun p => ('"' :: p.1, p.2))
  | '\\' :: '\\' :: rest => (parseJStrChars rest).map (fun p => ('\\' :: p.1, p.2))
  | '\\' :: '/' :: rest => (parseJStrChars rest).map (fun p => ('/' :: p.1, p.2))
  | '\\' :: 'b' :: rest => (parseJStrChars rest).map (fun p => ('\x08' :: p.1, p.2))
  | '\\' :: 'f' :: rest => (parseJStrChars rest).map (fun p => ('\x0c' :: p.1, p.2))
  | '\\' :: 'n' :: rest => (parseJStrChars rest).map (fun p => ('\n' :: p.1, p.2))
  | '\\' :: 'r' :: rest => (parseJStrChars rest).map (fun p => ('\r' :: p.1, p.2))
  | '\\' :: 't' :: rest => (parseJStrChars rest).map (fun p => ('\t' :: p.1, p.2))
  | '\\' :: 'u' :: a :: b :: c :: d :: rest =>
    match hexVal a, hexVal b, hexVal c, hexVal d with
    | some ha, some hb, some hc, some hd =>
      (parseJStrChars rest).map
        (fun p => (Char.ofNat (4096 * ha + 256 * hb + 16 * hc + hd) :: p.1, p.2))
    | _, _, _, _ => none
  | '\\' :: _ => none
  | c :: rest =>
    if c.toNat < 32 then none
    else (parseJStrChars rest).map (fun p => (c :: p.1, p.2))

def digitsToNat (l : List Char) : Nat :=
  l.foldl (fun acc c => 10 * acc + (c.toNat - 48)) 0

def parseJNum (l : List Char) : Option (ℚ × List Char) :=
  let (neg, l1) := match l with
    | '-' :: r => (true, r)
    | _ => (false, l)
  let ds := l1.takeWhile Char.isDigit
  let l2 := l1.dropWhile Char.isDigit
  if ds.isEmpty then none
  else
    let intPart : ℚ := (digitsToNat ds : ℚ)
    let (frac, l3) : ℚ × List Char := match l2 with
      | '.' :: r =>
        let fs := r.takeWhile Char.isDigit
        ((digitsToNat fs : ℚ) / ((10 : ℚ) ^ fs.length), r.dropWhile Char.isDigit)
      | _ => (0, l2)
    let withFrac := intPart + frac
    let (scaled, l4) : ℚ × List Char := match l3 with
      | 'e' :: '-' :: r =>
        let es := r.takeWhile Char.isDigit
        (withFrac / ((10 : ℚ) ^ digitsToNat es), r.dropWhile Char.isDigit)
      | 'e' :: '+' :: r =>
        let es := r.takeWhile Char.isDigit
        (withFrac * ((10 : ℚ) ^ digitsToNat es), r.dropWhile Char.isDigit)
      | 'e' :: r =>
        let es := r.takeWhile Char.isDigit
        (withFrac * ((10 : ℚ) ^ digitsToNat es), r.dropWhile Char.isDigit)
      | 'E' :: '-' :: r =>
        let es := r.takeWhile Char.isDigit
        (withFrac / ((10 : ℚ) ^ digitsToNat es), r.dropWhile Char.isDigit)
      | 'E' :: '+' :: r =>
        let es := r.takeWhile Char.isDigit
        (withFrac * ((10 : ℚ) ^ digitsToNat es), r.dropWhile Char.isDigit)
      | 'E' :: r =>
        let es := r.takeWhile Char.isDigit
        (withFrac * ((10 : ℚ) ^ digitsToNat es), r.dropWhile Char.isDigit)
      | _ => (withFrac, l3)
    some (if neg then -scaled else scaled, l4)

mutual

def parseValue : Nat → List Char → Option (JValue × List Char)
  | 0, _ => none
  | fuel + 1, l =>
    match skipWs l with
    | '"' :: rest => (parseJStrChars rest).map (fun p => (JValue.jstr ⟨p.1⟩, p.2))
    | '{' :: rest =>
      match skipWs rest with
      | '}' :: rest2 => some (JValue.jobj [], rest2)
      | _ => parseObjMembers fuel rest []
    | '[' :: rest =>
      match skipWs rest with
      | ']' :: rest2 => some (JValue.jarr [], rest2)
      | _ => parseArrElems fuel rest []
    | 't' :: 'r' :: 'u' :: 'e' :: rest => some (JValue.jbool true, rest)
    | 'f' :: 'a' :: 'l' :: 's' :: 'e' :: rest => some (JValue.jbool false, rest)
    | 'n' :: 'u' :: 'l' :: 'l' :: rest => some (JValue.jnull, rest)
    | l2 => (parseJNum l2).map (fun p => (JValue.jnum p.1, p.2))

def parseObjMembers :
    Nat → List Char → List (String × JValue) → Option (JValue × List Char)
  | 0, _, _ => none
  | fuel + 1, l, acc =>
    match skipWs l with
    | '"' :: rest =>
      match parseJStrChars rest with
      | none => none
      | some (key, rest2) =>
        match skipWs rest2 with
        | ':' :: rest3 =>
          match parseValue fuel rest3 with
          | none => none
          | some (v, rest4) =>
            match skipWs rest4 with
            | ',' :: rest5 => parseObjMembers fuel rest5 (acc ++ [(⟨key⟩, v)])
            | '}' :: rest5 => some (JValue.jobj (acc ++ [(⟨key⟩, v)]), rest5)
            | _ => none
        | _ => none
    | _ => none

def parseArrElems : Nat → List Char → List JValue → Option (JValue × List Char)
  | 0, _, _ => none
  | fuel + 1, l, acc =>
    match parseValue fuel l with
    | none => none
    | some (v, rest) =>
      match skipWs rest with
      | ',' :: rest2 => parseArrElems fuel rest2 (acc ++ [v])
      | ']' :: rest2 => some (JValue.jarr (acc ++ [v]), rest2)
      | _ => none

end

/-- Python `json.loads`: one JSON value, then only trailing whitespace. -/
def jsonLoads (s : String) : Option JValue :=
  match parseValue (s.data.length + 2) s.data with
  | some (v, rest) => if skipWs rest = [] then some v else none
  | none => none

/-- Key membership in a parsed object (`'k' in parsed`). -/
def jHasKey (fields : List (String × JValue)) (k : String) : Bool :=
  fields.any (fun p => p.1 = k)

/-- Lookup in a parsed object (`parsed[k]`); a duplicated key keeps the last
value, as Python's dict does. -/
def jGet (fields : List (String × JValue)) (k : String) : Option JValue :=
  ((fields.filter (fun p => p.1 = k)).getLast?).map (fun p => p.2)

/-! ### `src/ai_service.py`

`AIService._fallback_parse_response`, `AIService._parse_structured_response`
and `AIService.generate_followup_questions`.  A result dict
`{'question': q, 'reason': r}` is `some ⟨q, r⟩`; the empty dict is `none`. -/

structure FollowupData where
  question : String
  reason : String
deriving DecidableEq, Repr

/-- The line scan of `_fallback_parse_response`: the last stripped line ending in
`?` becomes the question, the first stripped non-empty line not starting
with a brace becomes the reason. -/
def fallbackScan : List String → String → String → String × String
  | [], q, r => (q, r)
  | line :: rest, q, r =>
    let l := pyStrip line
    if pyEndsWith l "?" then fallbackScan rest l r
    else if l ≠ "" ∧ pyStartsWith l "\x7b" = false ∧ pyStartsWith l "\x7d" = false then
      (if r = "" then fallbackScan rest q l else fallbackScan rest q r)
    else fallbackScan rest q r

/-- Model of `AIService._fallback_parse_response` (src/ai_service.py:137-166). -/
def fallback_parse_response (t : String) : Option FollowupData :=
  let p := fallbackScan (pySplitLines (pyStrip t)) "" ""
  if p.1 ≠ "" ∧ p.2 ≠ "" then some ⟨p.1, p.2⟩ else none

/-- The markdown cleanup at the head of `_parse_structured_response`:
strip, drop a leading ```` ```json ````, drop a trailing ```` ``` ````,
strip again. -/
def stripCodeFence (t : String) : String :=
  let cleaned := pyStrip t
  let cleaned := if pyStartsWith cleaned "```json" then pyDropLeft cleaned 7 else cleaned
  let cleaned := if pyEndsWith cleaned "```" then pyDropRight cleaned 3 else cleaned
  pyStrip cleaned

/-- Model of `if question and not question.endswith('?'): question += '?'`. -/
def ensureQuestionMark (q : String) : String :=
  if q ≠ "" ∧ pyEndsWith q "?" = false then q ++ "?" else q

/-- Model of `AIService._parse_structured_response` (src/ai_service.py:90-135).
A `json.JSONDecodeError` falls back to the line scanner on the original
text; `.strip()` on a non-string field raises and is caught by the outer
`except Exception`, yielding the empty dict. -/
def parse_structured_response (t : String) : Option FollowupData :=
  match jsonLoads (stripCodeFence t) with
  | none => fallback_parse_response t
  | some (JValue.jobj fields) =>
    if jHasKey fields "question" ∧ jHasKey fields "reason" then
      match jGet fields "question", jGet fields "reason" with
      | some (JValue.jstr q), some (JValue.jstr r) =>
        some ⟨ensureQuestionMark (pyStrip q), pyStrip r⟩
      | _, _ => none
    else none
  | some _ => none

/-- The `AIService` configuration established by `AIService.__init__` via
`init_services` (defaults `'gemini-2.0-flash'` and `0.7`). -/
structure AIServiceCfg where
  default_model : String
  default_temperature : ℚ
deriving DecidableEq

/-- What `generate_followup_questions` hands to the Gemini API: the
`GenerativeModel(model_name, system_instruction, generation_config)` plus
the content prompt passed to `generate_content`. -/
structure GenRequest where
  model_name : String
  system_instruction : String
  temperature : ℚ
  content_prompt : String
deriving DecidableEq

/-- The f-string `content_prompt` of src/ai_service.py:61-75, braces written
as `\x7b`/`\x7d`. -/
def contentPrompt (question answer : String) : String :=
  "\n                Original Question: " ++ question ++
  "\n\n                User's Answer: " ++ answer ++
  "\n\n                Please generate exactly 1 thoughtful follow-up question based on the user's answer above, along with a clear reason explaining why this follow-up question is needed.\n\n                Format your response as a JSON object with exactly these two fields:\n                \x7b\n                    \"question\": \"Your follow-up question here?\",\n                    \"reason\": \"Explanation of why this follow-up question is needed\"\n                \x7d\n\n                Make sure the question ends with a question mark and the reason is a clear, concise explanation. Even no question is generated, please provide a reason.\n            "

/-- The request built by src/ai_service.py:40-75.  Python's
`model or self.default_model` / `temperature or self.default_temperature`
fall back when the argument is `None` — or falsy: the empty string, or the
float `0.0`. -/
def genRequestOf (svc : AIServiceCfg) (prompt_context question answer : String)
    (model : Option String) (temperature : Option ℚ) : GenRequest :=
  let model_name := match model with
    | none => svc.default_model
    | some m => if m = "" then svc.default_model else m
  let temp := match temperature with
    | none => svc.default_temperature
    | some t => if t = 0 then svc.default_temperature else t
  ⟨model_name, prompt_context, temp, contentPrompt question answer⟩

/-- Model of `AIService.generate_followup_questions` (src/ai_service.py:25-88).
`llm` is the Gemini call: `none` models an exception (caught, returning the
empty dict); an empty `response.text` is falsy and also yields the empty
dict without parsing. -/
def generate_followup_questions (svc : AIServiceCfg) (llm : GenRequest → Option String)
    (prompt_context question answer : String)
    (model : Option String) (temperature : Option ℚ) : Option FollowupData :=
  match llm (genRequestOf svc prompt_context question answer model temperature) with
  | none => none
  | some text => if text = "" then none else parse_structured_response text

/-! ### `src/models.py` — record types

`created_at`/`updated_at` are never read by the embedded code and are
omitted; ids are `Nat`. -/

structure Prompt where
  id : Nat
  title : String
  content : String
  model : String
  temperature : ℚ
deriving DecidableEq, Repr

structure Question where
  id : Nat
  prompt_id : Nat
  question_text : String
deriving DecidableEq, Repr

structure User where
  id : Nat
  name : String
  email : Option String
deriving DecidableEq, Repr

structure Answer where
  id : Nat
  question_id : Nat
  user_id : Nat
  answer_text : String
deriving DecidableEq, Repr

structure FollowupQuestion where
  id : Nat
  answer_id : Nat
  followup_text : String
  reason : Option String
deriving DecidableEq, Repr

structure Experiment where
  id : Nat
  name : String
  description : String
  prompt_id : Nat
deriving DecidableEq, Repr

structure ExperimentCase where
  id : Nat
  experiment_id : Nat
  question_id : Nat
  user_id : Nat
  is_selected : Bool
deriving DecidableEq, Repr

structure CaseResult where
  case : ExperimentCase
  question : Question
  answer : Answer
  user : User
  followup_questions : List FollowupQuestion
deriving DecidableEq, Repr

/-! ### `src/database.py` — the persistence gateway

The Supabase tables the claims touch, as lists in insertion order
(`order("created_at")` coincides with it since ids and timestamps are
issued monotonically); `nextId` is the next server-assigned id. -/

structure Store where
  questions : List Question
  users : List User
  answers : List Answer
  followups : List FollowupQuestion
  cases : List ExperimentCase
  nextId : Nat
deriving DecidableEq, Repr

/-- Model of `DatabaseManager.get_answer_by_question_and_user` (src/database.py:215-231):
`select` filtered on both ids, first row or `None`. -/
def get_answer_by_question_and_user (s : Store) (qid uid : Nat) : Option Answer :=
  (s.answers.filter (fun a => a.question_id == qid && a.user_id == uid)).head?

/-- The inline question fetch of `get_selected_experiment_cases_with_data`
(src/database.py:499-509). -/
def lookupQuestion (s : Store) (qid : Nat) : Option Question :=
  (s.questions.filter (fun q => q.id == qid)).head?

/-- Model of `DatabaseManager.get_user_by_id` (src/database.py:328-343). -/
def get_user_by_id (s : Store) (uid : Nat) : Option User :=
  (s.users.filter (fun u => u.id == uid)).head?

/-- Model of `DatabaseManager.get_followups_by_answer` (src/database.py:261-278),
ordered by `created_at` = insertion order. -/
def get_followups_by_answer (s : Store) (aid : Nat) : List FollowupQuestion :=
  s.followups.filter (fun f => f.answer_id == aid)

/-- Model of `DatabaseManager.clear_followups_by_answer` (src/database.py:280-287). -/
def clear_followups_by_answer (s : Store) (aid : Nat) : Store :=
  { s with followups := s.followups.filter (fun f => !(f.answer_id == aid)) }

/-- Model of `DatabaseManager.create_followup_question` (src/database.py:239-259). -/
def create_followup_question (s : Store) (aid : Nat) (text : String)
    (reason : Option String) : Store :=
  { s with
    followups := s.followups ++ [⟨s.nextId, aid, text, reason⟩],
    nextId := s.nextId + 1 }

/-- Model of `DatabaseManager.get_experiment_cases` (src/database.py:449-467). -/
def get_experiment_cases (s : Store) (eid : Nat) : List ExperimentCase :=
  s.cases.filter (fun c => c.experiment_id == eid)

/-- Model of `DatabaseManager.create_experiment_case` (src/database.py:425-447). -/
def create_experiment_case (s : Store) (eid qid uid : Nat) (is_sel : Bool) : Store :=
  { s with
    cases := s.cases ++ [⟨s.nextId, eid, qid, uid, is_sel⟩],
    nextId := s.nextId + 1 }

/-- Model of `DatabaseManager.update_experiment_case_selection` (src/database.py:469-479):
an `update` keyed on the row id. -/
def update_experiment_case_selection (s : Store) (cid : Nat) (is_sel : Bool) : Store :=
  { s with
    cases := s.cases.map (fun c => if c.id == cid then { c with is_selected := is_sel } else c) }

/-- The per-case join of `get_selected_experiment_cases_with_data`
(src/database.py:498-530): fetch the case's question, user and answer,
`continue`-ing (`none`) when any is missing. -/
def joinCase (s : Store) (c : ExperimentCase) : Option CaseResult :=
  match lookupQuestion s c.question_id with
  | none => none
  | some q =>
    match get_user_by_id s c.user_id with
    | none => none
    | some u =>
      match get_answer_by_question_and_user s c.question_id c.user_id with
      | none => none
      | some a => some ⟨c, q, a, u, get_followups_by_answer s a.id⟩

/-- Model of `DatabaseManager.get_selected_experiment_cases_with_data`
(src/database.py:481-535): the selected cases of the experiment joined to
question, user, answer and follow-ups; a `continue` on any missing joined
row models the silent exclusion. -/
def get_selected_experiment_cases_with_data (s : Store) (eid : Nat) : List CaseResult :=
  (s.cases.filter (fun c => c.experiment_id == eid && c.is_selected)).filterMap (joinCase s)

/-! ### `src/app.py` — Experiment Runner (`run_experiment`, lines 562-607) -/

/-- The generation result for one joined case: the call of
src/app.py:585-591, passing the prompt's `content`, `model` and
`temperature` and the case's question and answer text. -/
def genFD (svc : AIServiceCfg) (llm : GenRequest → Option String) (p : Prompt)
    (cr : CaseResult) : Option FollowupData :=
  generate_followup_questions svc llm p.content cr.question.question_text
    cr.answer.answer_text (some p.model) (some p.temperature)

/-- One iteration of the runner's loop (src/app.py:578-601): clear the
answer's follow-ups, generate, persist on a non-empty result holding a
question. -/
def runCase (svc : AIServiceCfg) (llm : GenRequest → Option String) (p : Prompt)
    (st : Store) (cr : CaseResult) : Store :=
  let st1 := clear_followups_by_answer st cr.answer.id
  match genFD svc llm p cr with
  | some fd => create_followup_question st1 cr.answer.id fd.question (some fd.reason)
  | none => st1

/-- Model of `run_experiment` (src/app.py:562-607).  The second component is the
completion report: `none` when the joined set was empty (the early
"No selected cases found" return), otherwise the total number of cases the
success message announces. -/
def run_experiment (svc : AIServiceCfg) (llm : GenRequest → Option String)
    (s : Store) (ex : Experiment) (p : Prompt) : Store × Option Nat :=
  let case_results := get_selected_experiment_cases_with_data s ex.id
  if case_results.isEmpty then (s, none)
  else (case_results.foldl (runCase svc llm p) s, some case_results.length)

/-! ### `src/app.py` — Case Selection Model (`experiments_page`, lines 509-546) -/

/-- Model of `has_answer = answer and answer.answer_text.strip()` (src/app.py:524-525). -/
def hasAnswer (s : Store) (qid uid : Nat) : Bool :=
  match get_answer_by_question_and_user s qid uid with
  | some a => pyStrip a.answer_text ≠ ""
  | none => false

/-- Model of `existing_case_keys.get((qid, uid))`: the dict comprehension of
src/app.py:511 keeps the last row for a duplicated key. -/
def snapshotLookup (keys : List ExperimentCase) (qid uid : Nat) : Option ExperimentCase :=
  (keys.filter (fun c => c.question_id == qid && c.user_id == uid)).getLast?

/-- The body of the per-(question, user) iteration of src/app.py:518-546:
`sel` is the checkbox state rendered for the pair.  Unanswered pairs show
"No answer" and perform no store access; answered pairs update the
snapshot row when the checkbox differs from it, and create a row when the
snapshot has none and the checkbox is checked. -/
def reconcileStep (keys : List ExperimentCase) (eid : Nat) (sel : Nat → Nat → Bool)
    (st : Store) (qu : Nat × Nat) : Store :=
  if hasAnswer st qu.1 qu.2 then
    match snapshotLookup keys qu.1 qu.2 with
    | some c =>
      if sel qu.1 qu.2 ≠ c.is_selected then
        update_experiment_case_selection st c.id (sel qu.1 qu.2)
      else st
    | none =>
      if sel qu.1 qu.2 then create_experiment_case st eid qu.1 qu.2 (sel qu.1 qu.2) else st
  else st

/-- The (question, user) grid order of src/app.py:514-518. -/
def pairGrid (questions : List Question) (users : List User) : List (Nat × Nat) :=
  questions.flatMap (fun q => users.map (fun u => (q.id, u.id)))

/-- One full reconciliation pass of the selection grid
(src/app.py:509-546): the case snapshot is fetched once, then every
(question, user) cell runs `reconcileStep`. -/
def reconcilePass (s : Store) (eid : Nat) (questions : List Question)
    (users : List User) (sel : Nat → Nat → Bool) : Store :=
  (pairGrid questions users).foldl (reconcileStep (get_experiment_cases s eid) eid sel) s

/-! ### `src/app.py` — Result Aggregator (`results_page`, lines 647-695) -/

/-- One iteration of the grouping loop of src/app.py:648-656: a Python dict
keyed by `user_id` keeps insertion order, so a new user appends a group at
the end and a seen user appends the case to its group. -/
def addCaseToGroups (groups : List (Nat × User × List CaseResult)) (cr : CaseResult) :
    List (Nat × User × List CaseResult) :=
  if groups.any (fun g => g.1 == cr.user.id) then
    groups.map (fun g => if g.1 == cr.user.id then (g.1, g.2.1, g.2.2 ++ [cr]) else g)
  else groups ++ [(cr.user.id, cr.user, [cr])]

/-- Model of `results_by_user` of src/app.py:648-656. -/
def results_by_user (crs : List CaseResult) : List (Nat × User × List CaseResult) :=
  crs.foldl addCaseToGroups []

/-- Model of `total_users = len(results_by_user)` (src/app.py:682). -/
def total_users (crs : List CaseResult) : Nat := (results_by_user crs).length

/-- Model of `total_questions = len(set(case.question.id for case in case_results))`
(src/app.py:683); a Python set's size is the number of distinct ids. -/
def total_questions (crs : List CaseResult) : Nat :=
  (crs.map (fun c => c.question.id)).dedup.length

/-- Model of `total_cases = len(case_results)` (src/app.py:684). -/
def total_cases (crs : List CaseResult) : Nat := crs.length

/-- Model of `total_followups = sum(len(case.followup_questions) ...)` (src/app.py:685). -/
def total_followups (crs : List CaseResult) : Nat :=
  (crs.map (fun c => c.followup_questions.length)).sum

/-! ### Spec-side definitions

`firstSeen` renders the spec's "preserving first-encountered order of
users" for the refinement claim C9; it is written from the spec's words,
not from the source. -/

/-- The ids of `l` in order of first occurrence. -/
def firstSeen (l : List Nat) : List Nat :=
  l.foldl (fun acc x => if x ∈ acc then acc else acc ++ [x]) []

/-- The join data of a `CaseResult` without its follow-up list — what a
re-run of the same experiment sees unchanged. -/
def caseData (cr : CaseResult) : ExperimentCase × Question × Answer × User :=
  (cr.case, cr.question, cr.answer, cr.user)

/-- The number of case rows holding a given
(experiment_id, question_id, user_id) tuple — the spec's per-tuple
multiplicity, which the store itself does not guard. -/
def tupleCount (s : Store) (e q u : Nat) : Nat :=
  s.cases.countP (fun c => c.experiment_id == e && c.question_id == q && c.user_id == u)

/-! ### Concrete scenarios

Stores, prompts and generation doubles used by the counterexamples and
witnesses below. -/

/-- The malformed response of the spec's scenario (§8), braces written as
`\x7b`/`\x7d`. -/
def specC6Response : String :=
  "Sure! ```json \x7b\"question\": \"What next?\", \"reason\": \"clarify\"\x7d ```"

/-- A well-formed generation response. -/
def goodJsonResponse : String :=
  "\x7b\"question\": \"Why?\", \"reason\": \"because\"\x7d"

/-- The rational `0.7`, built in lowest terms so that kernel evaluation of rational
comparisons reduces. -/
def temp07 : ℚ := ⟨7, 10, by decide, by decide⟩

/-- The rational `0.3` in lowest terms. -/
def temp03 : ℚ := ⟨3, 10, by decide, by decide⟩

/-- The configuration `AIService()` gets from its defaults. -/
def svcDefault : AIServiceCfg := ⟨"gemini-2.0-flash", temp07⟩

/-- A generation network that always answers well. -/
def llmAlwaysGood : GenRequest → Option String := fun _ => some goodJsonResponse

/-- A generation network that fails (raises) exactly on the request carrying
the given content prompt. -/
def llmFailFor (failPrompt : String) : GenRequest → Option String :=
  fun r => if r.content_prompt = failPrompt then none else some goodJsonResponse

/-- A generation network that answers only requests issued at the given
sampling temperature, to observe which temperature the service sends. -/
def llmOnlyAtTemp (t : ℚ) : GenRequest → Option String :=
  fun r => if r.temperature = t then some goodJsonResponse else none

def promptW : Prompt := ⟨50, "T", "CTX", "gemini-2.0-flash", temp07⟩

def qW1 : Question := ⟨1, 50, "Q1"⟩

def qW2 : Question := ⟨2, 50, "Q2"⟩

def qW3 : Question := ⟨3, 50, "Q3"⟩

def userW : User := ⟨4, "Alice", none⟩

def expW : Experiment := ⟨100, "E", "", 50⟩

/-- Three answered, selected cases (one per question) for `expW`. -/
def storeC1 : Store :=
  ⟨[qW1, qW2, qW3], [userW],
   [⟨5, 1, 4, "A1"⟩, ⟨6, 2, 4, "A2"⟩, ⟨7, 3, 4, "A3"⟩],
   [],
   [⟨8, 100, 1, 4, true⟩, ⟨9, 100, 2, 4, true⟩, ⟨10, 100, 3, 4, true⟩],
   11⟩

/-- The joined case of `storeC1` whose generation the network refuses. -/
def crC1 : CaseResult := ⟨⟨9, 100, 2, 4, true⟩, qW2, ⟨6, 2, 4, "A2"⟩, userW, []⟩

def llmC1 : GenRequest → Option String := llmFailFor (contentPrompt "Q2" "A2")

/-- One selected answered case, one deselected answered case that already
carries a follow-up. -/
def storeC8 : Store :=
  ⟨[qW1, qW2], [userW],
   [⟨5, 1, 4, "A1"⟩, ⟨6, 2, 4, "A2"⟩],
   [⟨20, 6, "Old?", some "old"⟩],
   [⟨8, 100, 1, 4, true⟩, ⟨9, 100, 2, 4, false⟩],
   21⟩

def crC8 : CaseResult := ⟨⟨8, 100, 1, 4, true⟩, qW1, ⟨5, 1, 4, "A1"⟩, userW, []⟩

def expC10a : Experiment := ⟨200, "E1", "", 50⟩

def expC10b : Experiment := ⟨201, "E2", "", 50⟩

/-- Two experiments over the same prompt both select the same
(question, user) pair, hence the same answer. -/
def storeC10 : Store :=
  ⟨[qW1], [userW], [⟨5, 1, 4, "A1"⟩], [], [⟨6, 200, 1, 4, true⟩, ⟨7, 201, 1, 4, true⟩], 8⟩

/-- The store `storeC10` after running the second experiment: its generated follow-up
`fC10` is attached to the shared answer. -/
def storeC10b : Store := (run_experiment svcDefault llmAlwaysGood storeC10 expC10b promptW).1

def fC10 : FollowupQuestion := ⟨8, 5, "Why?", some "because"⟩

def crC10 : CaseResult := ⟨⟨6, 200, 1, 4, true⟩, qW1, ⟨5, 1, 4, "A1"⟩, userW, [fC10]⟩

/-- A prompt whose author chose the (valid) sampling temperature `0.0`. -/
def promptC5 : Prompt := ⟨50, "T", "CTX", "gemini-2.0-flash", 0⟩

def storeC5 : Store :=
  ⟨[qW1], [userW], [⟨5, 1, 4, "A1"⟩], [], [⟨6, 100, 1, 4, true⟩], 7⟩

def qC2 : Question := ⟨1, 50, "Q"⟩

def userC2 : User := ⟨2, "A", none⟩

/-- One answered (question, user) pair with no case row yet. -/
def storeC2 : Store := ⟨[qC2], [userC2], [⟨3, 1, 2, "hi"⟩], [], [], 10⟩

def userC3 : User := ⟨9, "B", none⟩

/-- An answered pair with an existing case row for experiment 5, plus a
second user with no answer. -/
def storeC3 : Store :=
  ⟨[qC2], [userC2, userC3], [⟨3, 1, 2, "hi"⟩], [], [⟨4, 5, 1, 2, true⟩], 10⟩

/-- A selected case whose answer row exists but holds the empty string. -/
def storeC4 : Store := ⟨[qC2], [userC2], [⟨3, 1, 2, ""⟩], [], [⟨4, 7, 1, 2, true⟩], 5⟩

/-! ## Theorems

### The generation-result shape (C6, C7) -/

lemma pyEndsWith_append_qmark (s : String) : pyEndsWith (s ++ "?") "?" = true := by
  have hd : (s ++ "?").data = s.data ++ ['?'] := by
    simp [String.data_append]
  simp only [pyEndsWith, hd]
  simp [List.isSuffixOf, List.isPrefixOf]

lemma ensureQuestionMark_ends (q : String) :
    ensureQuestionMark q = "" ∨ pyEndsWith (ensureQuestionMark q) "?" = true := by
  unfold ensureQuestionMark
  by_cases h : q ≠ "" ∧ pyEndsWith q "?" = false
  · rw [if_pos h]
    right
    exact pyEndsWith_append_qmark q
  · rw [if_neg h]
    push_neg at h
    by_cases hq : q = ""
    · left; exact hq
    · right
      have := h hq
      simpa using this

lemma fallbackScan_ends :
    ∀ (lines : List String) (q r : String),
      (q = "" ∨ pyEndsWith q "?" = true) →
      ((fallbackScan lines q r).1 = "" ∨ pyEndsWith (fallbackScan lines q r).1 "?" = true) := by
  intro lines
  induction lines with
  | nil => intro q r h; exact h
  | cons line rest ih =>
    intro q r h
    rw [fallbackScan]
    by_cases h1 : pyEndsWith (pyStrip line) "?" = true
    · rw [if_pos h1]
      exact ih _ r (Or.inr h1)
    · rw [if_neg h1]
      by_cases h2 : pyStrip line ≠ "" ∧ pyStartsWith (pyStrip line) "\x7b" = false ∧
          pyStartsWith (pyStrip line) "\x7d" = false
      · rw [if_pos h2]
        by_cases h3 : r = ""
        · rw [if_pos h3]; exact ih q _ h
        · rw [if_neg h3]; exact ih q r h
      · rw [if_neg h2]
        exact ih q r h

/-- Every outcome of `_parse_structured_response` is the empty dict or a
question/reason pair whose non-empty question ends in `?`. -/
lemma parse_structured_shape (t : String) :
    parse_structured_response t = none ∨
      ∃ fd, parse_structured_response t = some fd ∧
        (fd.question = "" ∨ pyEndsWith fd.question "?" = true) := by
  unfold parse_structured_response
  cases hj : jsonLoads (stripCodeFence t) with
  | none =>
    unfold fallback_parse_response
    have hp := fallbackScan_ends (pySplitLines (pyStrip t)) "" "" (Or.inl rfl)
    by_cases hc : (fallbackScan (pySplitLines (pyStrip t)) "" "").1 ≠ "" ∧
        (fallbackScan (pySplitLines (pyStrip t)) "" "").2 ≠ ""
    · right
      refine ⟨⟨(fallbackScan (pySplitLines (pyStrip t)) "" "").1,
        (fallbackScan (pySplitLines (pyStrip t)) "" "").2⟩, by rw [if_pos hc], ?_⟩
      exact hp
    · left
      rw [if_neg hc]
  | some v =>
    cases v with
    | jobj fields =>
      dsimp only
      by_cases hk : jHasKey fields "question" ∧ jHasKey fields "reason"
      · rw [if_pos hk]
        cases hq : jGet fields "question" with
        | none => left; rfl
        | some vq =>
          cases hr : jGet fields "reason" with
          | none => cases vq <;> simp
          | some vr =>
            cases vq with
            | jstr qs =>
              cases vr with
              | jstr rs =>
                right
                exact ⟨⟨ensureQuestionMark (pyStrip qs), pyStrip rs⟩, rfl,
                  ensureQuestionMark_ends (pyStrip qs)⟩
              | jnum q => left; rfl
              | jbool b => left; rfl
              | jnull => left; rfl
              | jarr xs => left; rfl
              | jobj fs => left; rfl
            | jnum q => left; rfl
            | jbool b => left; rfl
            | jnull => left; rfl
            | jarr xs => left; rfl
            | jobj fs => left; rfl
      · rw [if_neg hk]
        left; rfl
    | jstr s => left; rfl
    | jnum q => left; rfl
    | jbool b => left; rfl
    | jnull => left; rfl
    | jarr xs => left; rfl

/-- C7: for every response text, the generation result is either the empty
dict (`none`) or a question/reason pair, and a non-empty returned question
ends with `?`; a failing network call (the `llm` returning `none`, the
model of any raised and caught exception) yields the empty dict rather
than a propagated exception. -/
theorem C7_generation_result_shape (svc : AIServiceCfg) (llm : GenRequest → Option String)
    (ctx q a : String) (m : Option String) (t : Option ℚ) :
    (generate_followup_questions svc llm ctx q a m t = none ∨
      ∃ fd, generate_followup_questions svc llm ctx q a m t = some fd ∧
        (fd.question = "" ∨ pyEndsWith fd.question "?" = true)) ∧
    ((∀ r, llm r = none) → generate_followup_questions svc llm ctx q a m t = none) := by
  constructor
  · unfold generate_followup_questions
    cases h : llm (genRequestOf svc ctx q a m t) with
    | none => left; rfl
    | some text =>
      by_cases ht : text = ""
      · left; simp [ht]
      · simpa [ht] using parse_structured_shape text
  · intro hall
    unfold generate_followup_questions
    rw [hall (genRequestOf svc ctx q a m t)]

/-- C6 counterexample: the code does not parse the spec's malformed
response to the structured result — the fence stripper only removes a
```` ```json ```` at the very start of the text, so the `"Sure! "` prefix
defeats it, `json.loads` fails, and the line-scan fallback (which sees a
single line ending in a backtick, not `?`) yields the empty dict. -/
theorem C6_counterexample :
    parse_structured_response specC6Response ≠
      some ⟨"What next?", "clarify"⟩ := by decide

/-- C6 amended: parsing the spec's malformed response yields the empty
dict. -/
theorem C6_fence_prefix_defeats_parse :
    parse_structured_response specC6Response = none := by decide

/-! ### Result aggregation (C9) -/

lemma mem_foldl_firstSeen :
    ∀ (l : List Nat) (acc : List Nat) (y : Nat),
      y ∈ l.foldl (fun acc x => if x ∈ acc then acc else acc ++ [x]) acc ↔
        y ∈ acc ∨ y ∈ l := by
  intro l
  induction l with
  | nil => intro acc y; simp
  | cons x l ih =>
    intro acc y
    rw [List.foldl_cons, ih]
    by_cases hx : x ∈ acc
    · rw [if_pos hx]
      constructor
      · rintro (h | h)
        · exact Or.inl h
        · exact Or.inr (List.mem_cons_of_mem x h)
      · rintro (h | h)
        · exact Or.inl h
        · rcases List.mem_cons.mp h with h | h
          · exact Or.inl (h ▸ hx)
          · exact Or.inr h
    · rw [if_neg hx]
      simp only [List.mem_append, List.mem_singleton, List.mem_cons]
      tauto

lemma nodup_foldl_firstSeen :
    ∀ (l : List Nat) (acc : List Nat), acc.Nodup →
      (l.foldl (fun acc x => if x ∈ acc then acc else acc ++ [x]) acc).Nodup := by
  intro l
  induction l with
  | nil => intro acc h; exact h
  | cons x l ih =>
    intro acc h
    rw [List.foldl_cons]
    by_cases hx : x ∈ acc
    · rw [if_pos hx]; exact ih acc h
    · rw [if_neg hx]
      refine ih _ ?_
      rw [List.nodup_append]
      exact ⟨h, List.nodup_singleton x, fun a ha hb => by
        rw [List.mem_singleton] at hb
        exact hx (hb ▸ ha)⟩

lemma mem_firstSeen (l : List Nat) (y : Nat) : y ∈ firstSeen l ↔ y ∈ l := by
  unfold firstSeen
  rw [mem_foldl_firstSeen]
  simp

lemma firstSeen_length (l : List Nat) : (firstSeen l).length = l.toFinset.card := by
  have nd : (firstSeen l).Nodup := nodup_foldl_firstSeen l [] List.nodup_nil
  have hset : (firstSeen l).toFinset = l.toFinset := by
    ext y
    simp [List.mem_toFinset, mem_firstSeen]
  rw [← List.toFinset_card_of_nodup nd, hset]

lemma anyKey_iff (G : List (Nat × User × List CaseResult)) (u : Nat) :
    (G.any (fun g => g.1 == u)) = true ↔ u ∈ G.map (fun g => g.1) := by
  simp only [List.any_eq_true, List.mem_map, beq_iff_eq]

lemma addCase_keys_fst (G : List (Nat × User × List CaseResult)) (cr : CaseResult) :
    ((G.map (fun g => if g.1 == cr.user.id then (g.1, g.2.1, g.2.2 ++ [cr]) else g)).map
        (fun g => g.1)) = G.map (fun g => g.1) := by
  rw [List.map_map]
  refine List.map_congr_left (fun g _ => ?_)
  by_cases h : g.1 = cr.user.id <;> simp [h]

lemma addCase_invariant (G : List (Nat × User × List CaseResult)) (seen : List CaseResult)
    (cr : CaseResult)
    (hkeys : G.map (fun g => g.1) =
      (seen.map (fun c => c.user.id)).foldl (fun acc x => if x ∈ acc then acc else acc ++ [x]) [])
    (hgrp : ∀ g ∈ G, g.2.2 = seen.filter (fun c => c.user.id == g.1)) :
    ((addCaseToGroups G cr).map (fun g => g.1) =
      ((seen ++ [cr]).map (fun c => c.user.id)).foldl
        (fun acc x => if x ∈ acc then acc else acc ++ [x]) []) ∧
    (∀ g ∈ addCaseToGroups G cr, g.2.2 = (seen ++ [cr]).filter (fun c => c.user.id == g.1)) := by
  have hrhs : ((seen ++ [cr]).map (fun c => c.user.id)).foldl
      (fun acc x => if x ∈ acc then acc else acc ++ [x]) [] =
      (if cr.user.id ∈ G.map (fun g => g.1) then G.map (fun g => g.1)
       else G.map (fun g => g.1) ++ [cr.user.id]) := by
    rw [List.map_append, List.foldl_append, ← hkeys]
    rfl
  unfold addCaseToGroups
  by_cases hmem : (G.any (fun g => g.1 == cr.user.id)) = true
  · rw [if_pos hmem]
    have hin : cr.user.id ∈ G.map (fun g => g.1) := (anyKey_iff G cr.user.id).mp hmem
    constructor
    · rw [addCase_keys_fst, hrhs, if_pos hin, hkeys]
    · intro g' hg'
      rcases List.mem_map.mp hg' with ⟨g, hg, he⟩
      subst he
      by_cases h1 : g.1 = cr.user.id
      · rw [if_pos (beq_iff_eq.mpr h1)]
        have hone : List.filter (fun c => c.user.id == g.1) [cr] = [cr] := by
          have hb : (cr.user.id == g.1) = true := beq_iff_eq.mpr h1.symm
          simp [List.filter_singleton, hb]
        show g.2.2 ++ [cr] = (seen ++ [cr]).filter (fun c => c.user.id == g.1)
        rw [List.filter_append, hone, ← hgrp g hg]
      · rw [if_neg (fun hb => h1 (beq_iff_eq.mp hb))]
        have hnone : List.filter (fun c => c.user.id == g.1) [cr] = [] := by
          have hb : (cr.user.id == g.1) = false := by
            rw [beq_eq_false_iff_ne]
            exact fun hb => h1 hb.symm
          simp [List.filter_singleton, hb]
        rw [List.filter_append, hnone, List.append_nil, ← hgrp g hg]
  · rw [if_neg hmem]
    have hnin : cr.user.id ∉ G.map (fun g => g.1) := fun h =>
      hmem ((anyKey_iff G cr.user.id).mpr h)
    constructor
    · rw [hrhs, if_neg hnin, List.map_append, hkeys]
      rfl
    · intro g hg
      rcases List.mem_append.mp hg with hg | hg
      · rw [List.filter_append]
        have hnone : List.filter (fun c => c.user.id == g.1) [cr] = [] := by
          have hb : (cr.user.id == g.1) = false := by
            rw [beq_eq_false_iff_ne]
            exact fun hb => hnin (hb ▸ List.mem_map_of_mem (fun g => g.1) hg)
          simp [List.filter_singleton, hb]
        rw [hnone, List.append_nil, ← hgrp g hg]
      · rw [List.mem_singleton] at hg
        subst hg
        rw [List.filter_append]
        have hseen : seen.filter (fun c => c.user.id == cr.user.id) = [] := by
          rw [List.filter_eq_nil_iff]
          intro c hc he
          have hmem2 : cr.user.id ∈ seen.map (fun c => c.user.id) :=
            beq_iff_eq.mp he ▸ List.mem_map_of_mem (fun c => c.user.id) hc
          have hfold : cr.user.id ∈ (seen.map (fun c => c.user.id)).foldl
              (fun acc x => if x ∈ acc then acc else acc ++ [x]) [] := by
            rw [mem_foldl_firstSeen]
            exact Or.inr hmem2
          exact hnin (hkeys ▸ hfold)
        rw [hseen]
        have : List.filter (fun c => c.user.id == cr.user.id) [cr] = [cr] := by
          simp [List.filter_singleton]
        rw [this]
        rfl

lemma results_fold_invariant :
    ∀ (l : List CaseResult) (G : List (Nat × User × List CaseResult)) (seen : List CaseResult),
      (G.map (fun g => g.1) =
        (seen.map (fun c => c.user.id)).foldl
          (fun acc x => if x ∈ acc then acc else acc ++ [x]) []) →
      (∀ g ∈ G, g.2.2 = seen.filter (fun c => c.user.id == g.1)) →
      ((l.foldl addCaseToGroups G).map (fun g => g.1) =
        ((seen ++ l).map (fun c => c.user.id)).foldl
          (fun acc x => if x ∈ acc then acc else acc ++ [x]) []) ∧
      (∀ g ∈ l.foldl addCaseToGroups G, g.2.2 = (seen ++ l).filter (fun c => c.user.id == g.1)) := by
  intro l
  induction l with
  | nil =>
    intro G seen h1 h2
    rw [List.foldl_nil, List.append_nil]
    exact ⟨h1, h2⟩
  | cons cr l ih =>
    intro G seen h1 h2
    have step := addCase_invariant G seen cr h1 h2
    have hres := ih (addCaseToGroups G cr) (seen ++ [cr]) step.1 step.2
    rw [List.append_assoc, List.singleton_append] at hres
    exact hres

/-- C9: the Result Aggregator groups by `user_id` in first-encountered
order with cases in input order, and the summary counts are the distinct
user count, distinct question count, total case count and summed follow-up
count; the empty input yields zero groups and all-zero counts. -/
theorem C9_result_aggregation (crs : List CaseResult) :
    (results_by_user crs).map (fun g => g.1) = firstSeen (crs.map (fun c => c.user.id)) ∧
    (∀ g ∈ results_by_user crs, g.2.2 = crs.filter (fun c => c.user.id == g.1)) ∧
    total_users crs = (crs.map (fun c => c.user.id)).toFinset.card ∧
    total_questions crs = (crs.map (fun c => c.question.id)).toFinset.card ∧
    total_cases crs = crs.length ∧
    total_followups crs = (crs.map (fun c => c.followup_questions.length)).sum ∧
    (results_by_user [] = [] ∧ total_users ([] : List CaseResult) = 0 ∧
      total_questions ([] : List CaseResult) = 0 ∧ total_cases ([] : List CaseResult) = 0 ∧
      total_followups ([] : List CaseResult) = 0) := by
  have main := results_fold_invariant crs [] [] (by rfl) (by intro g hg; cases hg)
  have hkeys : (results_by_user crs).map (fun g => g.1) =
      firstSeen (crs.map (fun c => c.user.id)) := by
    unfold results_by_user firstSeen
    simpa using main.1
  refine ⟨hkeys, by simpa using main.2, ?_, ?_, rfl, rfl, rfl, rfl, rfl, rfl, rfl⟩
  · unfold total_users
    have : (results_by_user crs).length = ((results_by_user crs).map (fun g => g.1)).length := by
      rw [List.length_map]
    rw [this, hkeys, firstSeen_length]
  · unfold total_questions
    rw [List.card_toFinset]

/-! ### Experiment Runner (C1, C8, C10) -/

lemma filter_aid_clear (l : List FollowupQuestion) (a b : Nat) :
    (l.filter (fun f => !(f.answer_id == b))).filter (fun f => f.answer_id == a) =
      if a = b then [] else l.filter (fun f => f.answer_id == a) := by
  rw [List.filter_filter]
  by_cases hab : a = b
  · subst hab
    rw [if_pos rfl, List.filter_eq_nil_iff]
    intro f _ hf
    simp at hf
  · rw [if_neg hab]
    refine List.filter_congr (fun f _ => ?_)
    cases h1 : (f.answer_id == a) with
    | false => simp [h1]
    | true =>
      have h2 : (f.answer_id == b) = false := by
        rw [beq_eq_false_iff_ne]
        intro he
        exact hab ((beq_iff_eq.mp h1).symm.trans he)
      simp [h1, h2]

lemma getf_clear (st : Store) (a b : Nat) :
    get_followups_by_answer (clear_followups_by_answer st b) a =
      if a = b then [] else get_followups_by_answer st a := by
  unfold get_followups_by_answer clear_followups_by_answer
  exact filter_aid_clear st.followups a b

lemma getf_create (st : Store) (b : Nat) (txt : String) (rsn : Option String) (a : Nat) :
    get_followups_by_answer (create_followup_question st b txt rsn) a =
      get_followups_by_answer st a ++
        (if a = b then [⟨st.nextId, b, txt, rsn⟩] else []) := by
  unfold get_followups_by_answer create_followup_question
  rw [List.filter_append]
  congr 1
  by_cases hab : a = b
  · subst hab
    simp [List.filter_singleton]
  · have : (b == a) = false := by
      rw [beq_eq_false_iff_ne]
      exact fun h => hab h.symm
    simp [List.filter_singleton, this, hab]

lemma runCase_followups_other (svc : AIServiceCfg) (llm : GenRequest → Option String)
    (p : Prompt) (st : Store) (cr : CaseResult) (a : Nat) (h : a ≠ cr.answer.id) :
    get_followups_by_answer (runCase svc llm p st cr) a = get_followups_by_answer st a := by
  unfold runCase
  cases hg : genFD svc llm p cr with
  | none => rw [getf_clear, if_neg h]
  | some fd =>
    rw [getf_create, getf_clear, if_neg h, if_neg h, List.append_nil]

lemma runCase_followups_none (svc : AIServiceCfg) (llm : GenRequest → Option String)
    (p : Prompt) (st : Store) (cr : CaseResult) (hg : genFD svc llm p cr = none) :
    get_followups_by_answer (runCase svc llm p st cr) cr.answer.id = [] := by
  unfold runCase
  rw [hg]
  rw [getf_clear, if_pos rfl]

lemma runCase_followups_some (svc : AIServiceCfg) (llm : GenRequest → Option String)
    (p : Prompt) (st : Store) (cr : CaseResult) (fd : FollowupData)
    (hg : genFD svc llm p cr = some fd) :
    get_followups_by_answer (runCase svc llm p st cr) cr.answer.id =
      [⟨st.nextId, cr.answer.id, fd.question, some fd.reason⟩] := by
  unfold runCase
  rw [hg]
  rw [getf_create, getf_clear, if_pos rfl, if_pos rfl, List.nil_append]
  rfl

lemma runCase_nextId (svc : AIServiceCfg) (llm : GenRequest → Option String)
    (p : Prompt) (st : Store) (cr : CaseResult) :
    st.nextId ≤ (runCase svc llm p st cr).nextId := by
  unfold runCase
  cases genFD svc llm p cr with
  | none => exact Nat.le_refl _
  | some fd => exact Nat.le_succ _

lemma runCase_tables (svc : AIServiceCfg) (llm : GenRequest → Option String)
    (p : Prompt) (st : Store) (cr : CaseResult) :
    (runCase svc llm p st cr).questions = st.questions ∧
    (runCase svc llm p st cr).users = st.users ∧
    (runCase svc llm p st cr).answers = st.answers ∧
    (runCase svc llm p st cr).cases = st.cases := by
  unfold runCase
  cases genFD svc llm p cr with
  | none => exact ⟨rfl, rfl, rfl, rfl⟩
  | some fd => exact ⟨rfl, rfl, rfl, rfl⟩

lemma foldRun_followups_not_mem (svc : AIServiceCfg) (llm : GenRequest → Option String)
    (p : Prompt) :
    ∀ (l : List CaseResult) (st : Store) (a : Nat),
      a ∉ l.map (fun c => c.answer.id) →
      get_followups_by_answer (l.foldl (runCase svc llm p) st) a =
        get_followups_by_answer st a := by
  intro l
  induction l with
  | nil => intro st a _; rfl
  | cons cr l ih =>
    intro st a h
    rw [List.map_cons, List.mem_cons] at h
    push_neg at h
    rw [List.foldl_cons, ih _ a h.2, runCase_followups_other svc llm p st cr a h.1]

lemma foldRun_nextId (svc : AIServiceCfg) (llm : GenRequest → Option String) (p : Prompt) :
    ∀ (l : List CaseResult) (st : Store),
      st.nextId ≤ (l.foldl (runCase svc llm p) st).nextId := by
  intro l
  induction l with
  | nil => intro st; exact Nat.le_refl _
  | cons cr l ih =>
    intro st
    rw [List.foldl_cons]
    exact Nat.le_trans (runCase_nextId svc llm p st cr) (ih _)

lemma foldRun_tables (svc : AIServiceCfg) (llm : GenRequest → Option String) (p : Prompt) :
    ∀ (l : List CaseResult) (st : Store),
      (l.foldl (runCase svc llm p) st).questions = st.questions ∧
      (l.foldl (runCase svc llm p) st).users = st.users ∧
      (l.foldl (runCase svc llm p) st).answers = st.answers ∧
      (l.foldl (runCase svc llm p) st).cases = st.cases := by
  intro l
  induction l with
  | nil => intro st; exact ⟨rfl, rfl, rfl, rfl⟩
  | cons cr l ih =>
    intro st
    rw [List.foldl_cons]
    have h1 := runCase_tables svc llm p st cr
    have h2 := ih (runCase svc llm p st cr)
    exact ⟨h2.1.trans h1.1, h2.2.1.trans h1.2.1, h2.2.2.1.trans h1.2.2.1,
      h2.2.2.2.trans h1.2.2.2⟩

/-- The per-answer outcome of the runner's loop when the joined set carries
pairwise distinct answer ids: a failing generation leaves the answer with
no follow-ups, a succeeding one with exactly the freshly created one. -/
lemma foldRun_followups_none (svc : AIServiceCfg) (llm : GenRequest → Option String)
    (p : Prompt) :
    ∀ (l : List CaseResult) (st : Store) (cr : CaseResult),
      (l.map (fun c => c.answer.id)).Nodup → cr ∈ l →
      genFD svc llm p cr = none →
      get_followups_by_answer (l.foldl (runCase svc llm p) st) cr.answer.id = [] := by
  intro l
  induction l with
  | nil => intro st cr _ hcr; cases hcr
  | cons c l ih =>
    intro st cr hnd hcr hg
    rw [List.map_cons] at hnd
    have hni := (List.nodup_cons.mp hnd).1
    have hnd' := (List.nodup_cons.mp hnd).2
    rw [List.foldl_cons]
    rcases List.mem_cons.mp hcr with hcr | hcr
    · subst hcr
      rw [foldRun_followups_not_mem svc llm p l _ _ hni]
      exact runCase_followups_none svc llm p st cr hg
    · exact ih _ cr hnd' hcr hg

lemma foldRun_followups_some (svc : AIServiceCfg) (llm : GenRequest → Option String)
    (p : Prompt) :
    ∀ (l : List CaseResult) (st : Store) (cr : CaseResult) (fd : FollowupData),
      (l.map (fun c => c.answer.id)).Nodup → cr ∈ l →
      genFD svc llm p cr = some fd →
      ∃ j, st.nextId ≤ j ∧
        get_followups_by_answer (l.foldl (runCase svc llm p) st) cr.answer.id =
          [⟨j, cr.answer.id, fd.question, some fd.reason⟩] := by
  intro l
  induction l with
  | nil => intro st cr fd _ hcr; cases hcr
  | cons c l ih =>
    intro st cr fd hnd hcr hg
    rw [List.map_cons] at hnd
    have hni := (List.nodup_cons.mp hnd).1
    have hnd' := (List.nodup_cons.mp hnd).2
    rw [List.foldl_cons]
    rcases List.mem_cons.mp hcr with hcr | hcr
    · subst hcr
      refine ⟨st.nextId, Nat.le_refl _, ?_⟩
      rw [foldRun_followups_not_mem svc llm p l _ _ hni]
      exact runCase_followups_some svc llm p st cr fd hg
    · rcases ih _ cr fd hnd' hcr hg with ⟨j, hj, he⟩
      exact ⟨j, Nat.le_trans (runCase_nextId svc llm p st c) hj, he⟩

lemma run_experiment_of_ne_nil (svc : AIServiceCfg) (llm : GenRequest → Option String)
    (s : Store) (ex : Experiment) (p : Prompt)
    (h : get_selected_experiment_cases_with_data s ex.id ≠ []) :
    run_experiment svc llm s ex p =
      ((get_selected_experiment_cases_with_data s ex.id).foldl (runCase svc llm p) s,
        some (get_selected_experiment_cases_with_data s ex.id).length) := by
  unfold run_experiment
  rw [if_neg (fun hb => h (List.isEmpty_iff.mp hb))]

/-- C1: per-case generation failures are isolated — with a non-empty joined
set, a case whose generation returns the empty result ends the run with no
follow-up on its answer, every case whose generation succeeds still gets
its follow-up, and the reported total is the full joined-set size. -/
theorem C1_runner_failure_isolation (svc : AIServiceCfg) (llm : GenRequest → Option String)
    (s : Store) (ex : Experiment) (p : Prompt) (cr : CaseResult)
    (hnd : ((get_selected_experiment_cases_with_data s ex.id).map
      (fun c => c.answer.id)).Nodup)
    (hcr : cr ∈ get_selected_experiment_cases_with_data s ex.id)
    (hfail : genFD svc llm p cr = none) :
    (run_experiment svc llm s ex p).2 =
      some (get_selected_experiment_cases_with_data s ex.id).length ∧
    get_followups_by_answer (run_experiment svc llm s ex p).1 cr.answer.id = [] ∧
    ∀ cr' ∈ get_selected_experiment_cases_with_data s ex.id, ∀ fd,
      genFD svc llm p cr' = some fd →
      (get_followups_by_answer (run_experiment svc llm s ex p).1 cr'.answer.id).length = 1 := by
  have hne : get_selected_experiment_cases_with_data s ex.id ≠ [] :=
    List.ne_nil_of_mem hcr
  rw [run_experiment_of_ne_nil svc llm s ex p hne]
  refine ⟨rfl, ?_, ?_⟩
  · exact foldRun_followups_none svc llm p _ s cr hnd hcr hfail
  · intro cr' hcr' fd hfd
    rcases foldRun_followups_some svc llm p _ s cr' fd hnd hcr' hfd with ⟨j, _, he⟩
    rw [he]
    rfl

/-- C1 witness: three selected answered cases, the network failing on the
second — the run reports total 3, leaves answer 6 (the failed case) with no
follow-up, and persists exactly 2 follow-ups. -/
theorem C1_runner_failure_isolation_witness :
    (run_experiment svcDefault llmC1 storeC1 expW promptW).2 = some 3 ∧
    get_followups_by_answer (run_experiment svcDefault llmC1 storeC1 expW promptW).1 6 = [] ∧
    (run_experiment svcDefault llmC1 storeC1 expW promptW).1.followups.length = 2 := by
  have h := C1_runner_failure_isolation svcDefault llmC1 storeC1 expW promptW crC1
    (by decide) (by decide) (by decide)
  exact ⟨h.1.trans (by decide), h.2.1, by decide⟩

lemma answer_lookup_found (s : Store) (q u : Nat) (a : Answer)
    (h : get_answer_by_question_and_user s q u = some a) :
    a ∈ s.answers ∧ a.question_id = q ∧ a.user_id = u := by
  unfold get_answer_by_question_and_user at h
  have hm : a ∈ s.answers.filter (fun x => x.question_id == q && x.user_id == u) :=
    List.mem_of_mem_head? (by simp [h])
  rw [List.mem_filter] at hm
  have hb := hm.2
  rw [Bool.and_eq_true, beq_iff_eq, beq_iff_eq] at hb
  exact ⟨hm.1, hb.1, hb.2⟩

lemma joinCase_eq_some (s : Store) (c : ExperimentCase) (cr : CaseResult) :
    joinCase s c = some cr ↔
      (cr.case = c ∧ lookupQuestion s c.question_id = some cr.question ∧
       get_user_by_id s c.user_id = some cr.user ∧
       get_answer_by_question_and_user s c.question_id c.user_id = some cr.answer ∧
       cr.followup_questions = get_followups_by_answer s cr.answer.id) := by
  obtain ⟨cc, cq, ca, cu, cf⟩ := cr
  unfold joinCase
  cases hq : lookupQuestion s c.question_id with
  | none => simp
  | some q =>
    cases hu : get_user_by_id s c.user_id with
    | none => simp
    | some u =>
      cases ha : get_answer_by_question_and_user s c.question_id c.user_id with
      | none => simp
      | some a =>
        simp only [Option.some.injEq, CaseResult.mk.injEq]
        constructor
        · rintro ⟨h1, h2, h3, h4, h5⟩
          subst h1; subst h2; subst h3; subst h4; subst h5
          exact ⟨rfl, rfl, rfl, rfl, rfl⟩
        · rintro ⟨h1, h2, h3, h4, h5⟩
          subst h1; subst h2; subst h3; subst h4; subst h5
          exact ⟨rfl, rfl, rfl, rfl, rfl⟩

lemma mem_get_selected_iff (s : Store) (eid : Nat) (cr : CaseResult) :
    cr ∈ get_selected_experiment_cases_with_data s eid ↔
      (cr.case ∈ s.cases ∧ cr.case.experiment_id = eid ∧ cr.case.is_selected = true ∧
       lookupQuestion s cr.case.question_id = some cr.question ∧
       get_user_by_id s cr.case.user_id = some cr.user ∧
       get_answer_by_question_and_user s cr.case.question_id cr.case.user_id = some cr.answer ∧
       cr.followup_questions = get_followups_by_answer s cr.answer.id) := by
  unfold get_selected_experiment_cases_with_data
  rw [List.mem_filterMap]
  constructor
  · rintro ⟨c, hc, hj⟩
    rw [joinCase_eq_some] at hj
    obtain ⟨h1, h2, h3, h4, h5⟩ := hj
    rw [List.mem_filter] at hc
    have hb := hc.2
    rw [Bool.and_eq_true, beq_iff_eq] at hb
    rw [h1]
    exact ⟨hc.1, hb.1, hb.2, h2, h3, h4, h5⟩
  · rintro ⟨h1, h2, h3, h4, h5, h6, h7⟩
    refine ⟨cr.case, List.mem_filter.mpr ⟨h1, ?_⟩, (joinCase_eq_some s cr.case cr).mpr
      ⟨rfl, h4, h5, h6, h7⟩⟩
    rw [Bool.and_eq_true, beq_iff_eq]
    exact ⟨h2, h3⟩

lemma joinCase_map_caseData (s s' : Store) (c : ExperimentCase)
    (hq : s'.questions = s.questions) (hu : s'.users = s.users)
    (ha : s'.answers = s.answers) :
    (joinCase s' c).map caseData = (joinCase s c).map caseData := by
  unfold joinCase lookupQuestion get_user_by_id get_answer_by_question_and_user
  rw [hq, hu, ha]
  cases (s.questions.filter (fun q => q.id == c.question_id)).head? with
  | none => rfl
  | some q =>
    cases (s.users.filter (fun u => u.id == c.user_id)).head? with
    | none => rfl
    | some u =>
      cases (s.answers.filter
          (fun a => a.question_id == c.question_id && a.user_id == c.user_id)).head? with
      | none => rfl
      | some a => rfl

lemma get_selected_map_caseData (s s' : Store) (eid : Nat)
    (hq : s'.questions = s.questions) (hu : s'.users = s.users)
    (ha : s'.answers = s.answers) (hc : s'.cases = s.cases) :
    (get_selected_experiment_cases_with_data s' eid).map caseData =
      (get_selected_experiment_cases_with_data s eid).map caseData := by
  unfold get_selected_experiment_cases_with_data
  rw [hc, List.map_filterMap, List.map_filterMap]
  exact List.filterMap_congr (fun c _ => joinCase_map_caseData s s' c hq hu ha)

lemma run_experiment_of_nil (svc : AIServiceCfg) (llm : GenRequest → Option String)
    (s : Store) (ex : Experiment) (p : Prompt)
    (h : get_selected_experiment_cases_with_data s ex.id = []) :
    run_experiment svc llm s ex p = (s, none) := by
  unfold run_experiment
  rw [if_pos (List.isEmpty_iff.mpr h)]

lemma run_experiment_tables (svc : AIServiceCfg) (llm : GenRequest → Option String)
    (s : Store) (ex : Experiment) (p : Prompt) :
    (run_experiment svc llm s ex p).1.questions = s.questions ∧
    (run_experiment svc llm s ex p).1.users = s.users ∧
    (run_experiment svc llm s ex p).1.answers = s.answers ∧
    (run_experiment svc llm s ex p).1.cases = s.cases := by
  by_cases h : get_selected_experiment_cases_with_data s ex.id = []
  · rw [run_experiment_of_nil svc llm s ex p h]
    exact ⟨rfl, rfl, rfl, rfl⟩
  · rw [run_experiment_of_ne_nil svc llm s ex p h]
    exact foldRun_tables svc llm p _ s

lemma genFD_congr (svc : AIServiceCfg) (llm : GenRequest → Option String) (p : Prompt)
    (cr cr' : CaseResult) (hq : cr'.question = cr.question) (ha : cr'.answer = cr.answer) :
    genFD svc llm p cr' = genFD svc llm p cr := by
  unfold genFD
  rw [hq, ha]

/-- C8: a run touches only the follow-ups of the answers in its joined
selected set — deselected cases' answers and deleted answers keep their
follow-ups — and with generation succeeding, each selected case's answer
holds exactly one follow-up after a run and again after a re-run, so
duplicates never accumulate. -/
theorem C8_rerun_and_frame (svc : AIServiceCfg) (llm : GenRequest → Option String)
    (s : Store) (ex : Experiment) (p : Prompt)
    (hnd : ((get_selected_experiment_cases_with_data s ex.id).map
      (fun c => c.answer.id)).Nodup)
    (hans : (s.answers.map (fun a => a.id)).Nodup)
    (htuple : ∀ c1 ∈ s.cases, ∀ c2 ∈ s.cases, c1.experiment_id = c2.experiment_id →
      c1.question_id = c2.question_id → c1.user_id = c2.user_id → c1 = c2) :
    (∀ a, a ∉ (get_selected_experiment_cases_with_data s ex.id).map (fun c => c.answer.id) →
      get_followups_by_answer (run_experiment svc llm s ex p).1 a =
        get_followups_by_answer s a) ∧
    (∀ c ∈ s.cases, c.experiment_id = ex.id → c.is_selected = false →
      ∀ ans, get_answer_by_question_and_user s c.question_id c.user_id = some ans →
        get_followups_by_answer (run_experiment svc llm s ex p).1 ans.id =
          get_followups_by_answer s ans.id) ∧
    (∀ a, (∀ ans ∈ s.answers, ans.id ≠ a) →
      get_followups_by_answer (run_experiment svc llm s ex p).1 a =
        get_followups_by_answer s a) ∧
    ((∀ cr ∈ get_selected_experiment_cases_with_data s ex.id,
        (genFD svc llm p cr).isSome = true) →
      (∀ cr ∈ get_selected_experiment_cases_with_data s ex.id,
        (get_followups_by_answer (run_experiment svc llm s ex p).1 cr.answer.id).length = 1) ∧
      (∀ cr ∈ get_selected_experiment_cases_with_data s ex.id,
        (get_followups_by_answer
          (run_experiment svc llm (run_experiment svc llm s ex p).1 ex p).1
          cr.answer.id).length = 1)) := by
  have frame : ∀ a,
      a ∉ (get_selected_experiment_cases_with_data s ex.id).map (fun c => c.answer.id) →
      get_followups_by_answer (run_experiment svc llm s ex p).1 a =
        get_followups_by_answer s a := by
    intro a hmem
    by_cases hcrs : get_selected_experiment_cases_with_data s ex.id = []
    · rw [run_experiment_of_nil svc llm s ex p hcrs]
    · rw [run_experiment_of_ne_nil svc llm s ex p hcrs]
      exact foldRun_followups_not_mem svc llm p _ s a hmem
  refine ⟨frame, ?_, ?_, ?_⟩
  · intro c hc hce hcsel ans hansl
    refine frame ans.id (fun hmem => ?_)
    rcases List.mem_map.mp hmem with ⟨cr, hcr, haid⟩
    have hjoin := (mem_get_selected_iff s ex.id cr).mp hcr
    have hansm := answer_lookup_found s c.question_id c.user_id ans hansl
    have hcrm := answer_lookup_found s cr.case.question_id cr.case.user_id cr.answer
      hjoin.2.2.2.2.2.1
    have heq : cr.answer = ans :=
      List.inj_on_of_nodup_map hans hcrm.1 hansm.1 haid
    have hqid : c.question_id = cr.case.question_id := by
      rw [← hansm.2.1, ← heq, hcrm.2.1]
    have huid : c.user_id = cr.case.user_id := by
      rw [← hansm.2.2, ← heq, hcrm.2.2]
    have hcc : c = cr.case :=
      htuple c hc cr.case hjoin.1 (hce.trans hjoin.2.1.symm) hqid huid
    rw [hcc] at hcsel
    rw [hjoin.2.2.1] at hcsel
    cases hcsel
  · intro a hnone
    refine frame a (fun hmem => ?_)
    rcases List.mem_map.mp hmem with ⟨cr, hcr, haid⟩
    have hjoin := (mem_get_selected_iff s ex.id cr).mp hcr
    have hcrm := answer_lookup_found s cr.case.question_id cr.case.user_id cr.answer
      hjoin.2.2.2.2.2.1
    exact hnone cr.answer hcrm.1 haid
  · intro hsucc
    constructor
    · intro cr hcr
      have hne : get_selected_experiment_cases_with_data s ex.id ≠ [] :=
        List.ne_nil_of_mem hcr
      rcases Option.isSome_iff_exists.mp (hsucc cr hcr) with ⟨fd, hfd⟩
      rw [run_experiment_of_ne_nil svc llm s ex p hne]
      rcases foldRun_followups_some svc llm p _ s cr fd hnd hcr hfd with ⟨j, _, he⟩
      rw [he]
      rfl
    · intro cr hcr
      have htab := run_experiment_tables svc llm s ex p
      have hmapeq : (get_selected_experiment_cases_with_data
            (run_experiment svc llm s ex p).1 ex.id).map caseData =
          (get_selected_experiment_cases_with_data s ex.id).map caseData :=
        get_selected_map_caseData s _ ex.id htab.1 htab.2.1 htab.2.2.1 htab.2.2.2
      have hcd : caseData cr ∈ (get_selected_experiment_cases_with_data
          (run_experiment svc llm s ex p).1 ex.id).map caseData := by
        rw [hmapeq]
        exact List.mem_map_of_mem caseData hcr
      rcases List.mem_map.mp hcd with ⟨cr', hcr', hcdeq⟩
      have hparts : cr'.case = cr.case ∧ cr'.question = cr.question ∧
          cr'.answer = cr.answer ∧ cr'.user = cr.user := by
        unfold caseData at hcdeq
        injection hcdeq with e1 e2
        injection e2 with e2 e3
        injection e3 with e3 e4
        exact ⟨e1, e2, e3, e4⟩
      have hfd' : genFD svc llm p cr' = genFD svc llm p cr :=
        genFD_congr svc llm p cr cr' hparts.2.1 hparts.2.2.1
      rcases Option.isSome_iff_exists.mp (hsucc cr hcr) with ⟨fd, hfd⟩
      have hmapaid : (get_selected_experiment_cases_with_data
            (run_experiment svc llm s ex p).1 ex.id).map (fun c => c.answer.id) =
          (get_selected_experiment_cases_with_data s ex.id).map (fun c => c.answer.id) := by
        have h1 := congrArg (List.map (fun t : ExperimentCase × Question × Answer × User =>
          t.2.2.1.id)) hmapeq
        rw [List.map_map, List.map_map] at h1
        exact h1
      have hnd' : ((get_selected_experiment_cases_with_data
          (run_experiment svc llm s ex p).1 ex.id).map (fun c => c.answer.id)).Nodup := by
        rw [hmapaid]
        exact hnd
      have hne' : get_selected_experiment_cases_with_data
          (run_experiment svc llm s ex p).1 ex.id ≠ [] :=
        List.ne_nil_of_mem hcr'
      rw [run_experiment_of_ne_nil svc llm _ ex p hne']
      rcases foldRun_followups_some svc llm p _ _ cr' fd hnd'
        hcr' (hfd'.trans hfd) with ⟨j, _, he⟩
      rw [← hparts.2.2.1, he]
      rfl

/-- C8 witness: with one selected and one deselected answered case (the
latter already carrying follow-up id 20 on answer 6), a run leaves answer
6 untouched, and the selected case's answer 5 holds exactly one follow-up
after the run and after a re-run. -/
theorem C8_rerun_and_frame_witness :
    get_followups_by_answer
        (run_experiment svcDefault llmAlwaysGood storeC8 expW promptW).1 6 =
      [⟨20, 6, "Old?", some "old"⟩] ∧
    (get_followups_by_answer
        (run_experiment svcDefault llmAlwaysGood storeC8 expW promptW).1 5).length = 1 ∧
    (get_followups_by_answer
        (run_experiment svcDefault llmAlwaysGood
          (run_experiment svcDefault llmAlwaysGood storeC8 expW promptW).1
          expW promptW).1 5).length = 1 := by
  have h := C8_rerun_and_frame svcDefault llmAlwaysGood storeC8 expW promptW
    (by decide) (by decide) (by decide)
  have hdesel := h.2.1 ⟨9, 100, 2, 4, false⟩ (by decide) (by decide) (by decide)
    ⟨6, 2, 4, "A2"⟩ (by decide)
  have hsucc := h.2.2.2 (by decide)
  exact ⟨hdesel.trans (by decide), hsucc.1 crC8 (by decide), hsucc.2 crC8 (by decide)⟩

/-- C10: follow-up clearing and creation are keyed solely by `answer_id` —
running one experiment deletes any follow-up previously attached to an
answer in its joined set (a follow-up another experiment's run created for
the shared answer included) and, when generation succeeds, replaces it
with a fresh one. -/
theorem C10_cross_experiment_clobber (svc : AIServiceCfg) (llm : GenRequest → Option String)
    (s : Store) (ex : Experiment) (p : Prompt) (cr : CaseResult) (f : FollowupQuestion)
    (hnd : ((get_selected_experiment_cases_with_data s ex.id).map
      (fun c => c.answer.id)).Nodup)
    (hcr : cr ∈ get_selected_experiment_cases_with_data s ex.id)
    (hf : f ∈ s.followups) (hfa : f.answer_id = cr.answer.id) (hfid : f.id < s.nextId) :
    f ∉ (run_experiment svc llm s ex p).1.followups ∧
    (∀ fd, genFD svc llm p cr = some fd →
      ∃ g, g ∈ (run_experiment svc llm s ex p).1.followups ∧
        g.answer_id = cr.answer.id ∧ g.followup_text = fd.question ∧ g ≠ f) := by
  have hne : get_selected_experiment_cases_with_data s ex.id ≠ [] :=
    List.ne_nil_of_mem hcr
  rw [run_experiment_of_ne_nil svc llm s ex p hne]
  have hmemf : ∀ st : Store, f ∈ st.followups →
      f ∈ get_followups_by_answer st cr.answer.id := by
    intro st hm
    unfold get_followups_by_answer
    rw [List.mem_filter]
    exact ⟨hm, by rw [beq_iff_eq]; exact hfa⟩
  constructor
  · intro hmem
    cases hg : genFD svc llm p cr with
    | none =>
      have h0 := foldRun_followups_none svc llm p _ s cr hnd hcr hg
      have := hmemf _ hmem
      dsimp only at this h0
      rw [h0] at this
      cases this
    | some fd =>
      rcases foldRun_followups_some svc llm p _ s cr fd hnd hcr hg with ⟨j, hj, he⟩
      have := hmemf _ hmem
      dsimp only at this he
      rw [he] at this
      rw [List.mem_singleton] at this
      rw [this] at hfid
      exact absurd hj (by simpa using Nat.lt_irrefl _ (Nat.lt_of_le_of_lt hj hfid))
  · intro fd hg
    rcases foldRun_followups_some svc llm p _ s cr fd hnd hcr hg with ⟨j, hj, he⟩
    refine ⟨⟨j, cr.answer.id, fd.question, some fd.reason⟩, ?_, rfl, rfl, ?_⟩
    · have : (⟨j, cr.answer.id, fd.question, some fd.reason⟩ : FollowupQuestion) ∈
          get_followups_by_answer
            ((get_selected_experiment_cases_with_data s ex.id).foldl (runCase svc llm p) s)
            cr.answer.id := by
        rw [he]
        exact List.mem_singleton.mpr rfl
      unfold get_followups_by_answer at this
      exact List.mem_of_mem_filter this
    · intro heq
      have : f.id = j := by rw [← heq]
      rw [this] at hfid
      exact Nat.lt_irrefl _ (Nat.lt_of_lt_of_le hfid hj)

/-- C10 witness: experiments 200 and 201 share prompt 50 and both select
(question 1, user 4), hence answer 5.  Running 201 creates follow-up id 8
on answer 5; running 200 afterwards deletes it and replaces it with a new
one. -/
theorem C10_cross_experiment_clobber_witness :
    fC10 ∈ storeC10b.followups ∧
    fC10 ∉ (run_experiment svcDefault llmAlwaysGood storeC10b expC10a promptW).1.followups ∧
    (run_experiment svcDefault llmAlwaysGood storeC10b expC10a promptW).1.followups.map
      (fun g => (g.answer_id, g.followup_text)) = [(5, "Why?")] := by
  have h := C10_cross_experiment_clobber svcDefault llmAlwaysGood storeC10b expC10a
    promptW crC10 fC10 (by decide) (by decide) (by decide) (by decide) (by decide)
  exact ⟨by decide, h.1, by decide⟩

/-- C5 (code bug): the runner does hand the prompt's `content`, question
text, answer text and `model` to the generation call, but Python's
`temperature or self.default_temperature` treats the valid temperature
`0.0` as unset: a prompt stored with temperature `0` is generated at the
service default `0.7`.  A network double that only answers requests at the
prompt's own temperature sees nothing, while one answering at `0.7`
receives the call and a follow-up is written. -/
theorem C5_temperature_zero_ignored :
    promptC5.temperature = 0 ∧
    svcDefault.default_temperature = 7/10 ∧
    (run_experiment svcDefault (llmOnlyAtTemp 0) storeC5 expW promptC5).1.followups = [] ∧
    (run_experiment svcDefault (llmOnlyAtTemp temp07) storeC5 expW promptC5).1.followups.map
      (fun g => g.followup_text) = ["Why?"] ∧
    (genRequestOf svcDefault "CTX" "Q1" "A1" (some "gemini-2.0-flash")
      (some 0)).temperature = 7/10 ∧
    (genRequestOf svcDefault "CTX" "Q1" "A1" (some "gemini-2.0-flash")
      (some temp03)).temperature = 3/10 ∧
    (genRequestOf svcDefault "CTX" "Q1" "A1" (some "gemini-2.0-flash")
      (some temp03)).model_name = "gemini-2.0-flash" ∧
    (genRequestOf svcDefault "CTX" "Q1" "A1" (some "gemini-2.0-flash")
      (some temp03)).system_instruction = "CTX" := by
  have h07 : temp07 = 7/10 := by
    unfold temp07
    rw [Rat.mk'_eq_divInt, Rat.divInt_eq_div]
    norm_num
  have h03 : temp03 = 3/10 := by
    unfold temp03
    rw [Rat.mk'_eq_divInt, Rat.divInt_eq_div]
    norm_num
  have hreq0 : (genRequestOf svcDefault "CTX" "Q1" "A1" (some "gemini-2.0-flash")
      (some 0)).temperature = temp07 := by decide
  have hreq3 : (genRequestOf svcDefault "CTX" "Q1" "A1" (some "gemini-2.0-flash")
      (some temp03)).temperature = temp03 := by decide
  exact ⟨rfl, h07, by decide, by decide, hreq0.trans h07, hreq3.trans h03,
    by decide, rfl⟩

/-! ### Case Selection Model (C2, C3) -/

lemma reconcileStep_answers (keys : List ExperimentCase) (eid : Nat)
    (sel : Nat → Nat → Bool) (st : Store) (qu : Nat × Nat) :
    (reconcileStep keys eid sel st qu).answers = st.answers := by
  unfold reconcileStep
  by_cases ha : hasAnswer st qu.1 qu.2 = true
  · rw [if_pos ha]
    cases snapshotLookup keys qu.1 qu.2 with
    | some c =>
      dsimp only
      by_cases hs : sel qu.1 qu.2 ≠ c.is_selected
      · rw [if_pos hs]; rfl
      · rw [if_neg hs]
    | none =>
      dsimp only
      by_cases hs : sel qu.1 qu.2 = true
      · rw [if_pos hs]; rfl
      · rw [if_neg hs]
  · rw [if_neg ha]

lemma hasAnswer_congr (st s : Store) (h : st.answers = s.answers) (q u : Nat) :
    hasAnswer st q u = hasAnswer s q u := by
  unfold hasAnswer get_answer_by_question_and_user
  rw [h]

lemma update_tupleCount (st : Store) (cid : Nat) (b : Bool) (e q u : Nat) :
    tupleCount (update_experiment_case_selection st cid b) e q u = tupleCount st e q u := by
  unfold tupleCount update_experiment_case_selection
  rw [List.countP_map]
  refine List.countP_congr (fun c _ => ?_)
  by_cases hid : c.id = cid <;> simp [hid, Function.comp]

lemma create_tupleCount (st : Store) (eid q u : Nat) (b : Bool) (e q' u' : Nat) :
    tupleCount (create_experiment_case st eid q u b) e q' u' =
      tupleCount st e q' u' + (if e = eid ∧ q' = q ∧ u' = u then 1 else 0) := by
  unfold tupleCount create_experiment_case
  rw [List.countP_append]
  congr 1
  by_cases h : e = eid ∧ q' = q ∧ u' = u
  · obtain ⟨h1, h2, h3⟩ := h
    subst h1; subst h2; subst h3
    simp
  · have hp : (((eid == e) && (q == q')) && (u == u')) = false := by
      rcases not_and_or.mp h with h1 | h23
      · have hb : (eid == e) = false := by
          rw [beq_eq_false_iff_ne]; exact fun he => h1 he.symm
        simp [hb]
      · rcases not_and_or.mp h23 with h2 | h3
        · have hb : (q == q') = false := by
            rw [beq_eq_false_iff_ne]; exact fun he => h2 he.symm
          simp [hb]
        · have hb : (u == u') = false := by
            rw [beq_eq_false_iff_ne]; exact fun he => h3 he.symm
          simp [hb]
    rw [if_neg h]
    simp [List.countP_cons, hp]

lemma reconcileStep_tupleCount (keys : List ExperimentCase) (eid : Nat)
    (sel : Nat → Nat → Bool) (st : Store) (qu : Nat × Nat) (e q' u' : Nat) :
    tupleCount (reconcileStep keys eid sel st qu) e q' u' =
      tupleCount st e q' u' +
        (if hasAnswer st qu.1 qu.2 = true ∧ snapshotLookup keys qu.1 qu.2 = none ∧
            sel qu.1 qu.2 = true ∧ e = eid ∧ q' = qu.1 ∧ u' = qu.2 then 1 else 0) := by
  unfold reconcileStep
  by_cases ha : hasAnswer st qu.1 qu.2 = true
  · rw [if_pos ha]
    cases hc : snapshotLookup keys qu.1 qu.2 with
    | some c =>
      dsimp only
      have hrhs : ¬(hasAnswer st qu.1 qu.2 = true ∧ (some c : Option ExperimentCase) = none ∧
          sel qu.1 qu.2 = true ∧ e = eid ∧ q' = qu.1 ∧ u' = qu.2) := by
        rintro ⟨_, h2, _⟩
        exact Option.noConfusion h2
      rw [if_neg hrhs, Nat.add_zero]
      by_cases hs : sel qu.1 qu.2 ≠ c.is_selected
      · rw [if_pos hs, update_tupleCount]
      · rw [if_neg hs]
    | none =>
      dsimp only
      by_cases hsel : sel qu.1 qu.2 = true
      · rw [if_pos hsel, create_tupleCount]
        congr 1
        refine if_congr ?_ rfl rfl
        constructor
        · rintro ⟨h1, h2, h3⟩
          exact ⟨ha, rfl, hsel, h1, h2, h3⟩
        · rintro ⟨_, _, _, h1, h2, h3⟩
          exact ⟨h1, h2, h3⟩
      · rw [if_neg hsel]
        have hrhs : ¬(hasAnswer st qu.1 qu.2 = true ∧ (none : Option ExperimentCase) = none ∧
            sel qu.1 qu.2 = true ∧ e = eid ∧ q' = qu.1 ∧ u' = qu.2) := by
          rintro ⟨_, _, h3, _⟩
          exact hsel h3
        rw [if_neg hrhs, Nat.add_zero]
  · rw [if_neg ha]
    have hrhs : ¬(hasAnswer st qu.1 qu.2 = true ∧ snapshotLookup keys qu.1 qu.2 = none ∧
        sel qu.1 qu.2 = true ∧ e = eid ∧ q' = qu.1 ∧ u' = qu.2) := by
      rintro ⟨h1, _⟩
      exact ha h1
    rw [if_neg hrhs, Nat.add_zero]

lemma snapshotLookup_none_iff (s : Store) (eid q u : Nat) :
    snapshotLookup (get_experiment_cases s eid) q u = none ↔ tupleCount s eid q u = 0 := by
  unfold snapshotLookup get_experiment_cases tupleCount
  rw [List.getLast?_eq_none_iff, List.filter_filter, List.filter_eq_nil_iff,
    List.countP_eq_zero]
  have hiff : ∀ c : ExperimentCase,
      ((c.question_id == q && c.user_id == u) && (c.experiment_id == eid)) =
        ((c.experiment_id == eid && c.question_id == q) && c.user_id == u) := by
    intro c
    cases c.experiment_id == eid <;> cases c.question_id == q <;>
      cases c.user_id == u <;> rfl
  constructor
  · intro h c hc hp
    exact h c hc (by rw [hiff]; exact hp)
  · intro h c hc hp
    exact h c hc (by rw [← hiff]; exact hp)

lemma reconcile_fold_count (keys : List ExperimentCase) (eid : Nat)
    (sel : Nat → Nat → Bool) (s : Store) :
    ∀ (ps : List (Nat × Nat)) (st : Store),
      st.answers = s.answers →
      ps.Nodup →
      (∀ p ∈ ps, ∀ e, tupleCount st e p.1 p.2 = tupleCount s e p.1 p.2) →
      ∀ e q u,
        tupleCount (ps.foldl (reconcileStep keys eid sel) st) e q u =
            tupleCount st e q u ∨
          ((q, u) ∈ ps ∧ hasAnswer s q u = true ∧ snapshotLookup keys q u = none ∧
            e = eid ∧
            tupleCount (ps.foldl (reconcileStep keys eid sel) st) e q u =
              tupleCount st e q u + 1) := by
  intro ps
  induction ps with
  | nil => intro st _ _ _ e q u; left; rfl
  | cons p ps ih =>
    intro st hans hnd hsame e q u
    have hpn : p ∉ ps := (List.nodup_cons.mp hnd).1
    have hnd' : ps.Nodup := (List.nodup_cons.mp hnd).2
    have hans' : (reconcileStep keys eid sel st p).answers = s.answers :=
      (reconcileStep_answers keys eid sel st p).trans hans
    have hsame' : ∀ p' ∈ ps, ∀ e',
        tupleCount (reconcileStep keys eid sel st p) e' p'.1 p'.2 =
          tupleCount s e' p'.1 p'.2 := by
      intro p' hp' e'
      rw [reconcileStep_tupleCount]
      have hzero : ¬(hasAnswer st p.1 p.2 = true ∧ snapshotLookup keys p.1 p.2 = none ∧
          sel p.1 p.2 = true ∧ e' = eid ∧ p'.1 = p.1 ∧ p'.2 = p.2) := by
        rintro ⟨_, _, _, _, h1, h2⟩
        exact hpn (by
          have : p = p' := by
            apply Prod.ext
            · exact h1.symm
            · exact h2.symm
          rw [this]; exact hp')
      rw [if_neg hzero, Nat.add_zero]
      exact hsame p' (List.mem_cons_of_mem p hp') e'
    rw [List.foldl_cons]
    have hstep := reconcileStep_tupleCount keys eid sel st p e q u
    rcases ih (reconcileStep keys eid sel st p) hans' hnd' hsame' e q u with hres | hres
    · rw [hstep] at hres
      by_cases hcond : hasAnswer st p.1 p.2 = true ∧ snapshotLookup keys p.1 p.2 = none ∧
          sel p.1 p.2 = true ∧ e = eid ∧ q = p.1 ∧ u = p.2
      · right
        obtain ⟨hc1, hc2, hc3, hc4, hc5, hc6⟩ := hcond
        refine ⟨?_, ?_, ?_, hc4, ?_⟩
        · rw [hc5, hc6]
          exact List.mem_cons_self p ps
        · rw [hc5, hc6, ← hasAnswer_congr st s hans p.1 p.2]
          exact hc1
        · rw [hc5, hc6]
          exact hc2
        · rw [hres, if_pos ⟨hc1, hc2, hc3, hc4, hc5, hc6⟩]
      · left
        rw [hres, if_neg hcond, Nat.add_zero]
    · obtain ⟨hmem, hha, hsnap, heid, hcount⟩ := hres
      right
      refine ⟨List.mem_cons_of_mem p hmem, hha, hsnap, heid, ?_⟩
      rw [hcount, hstep]
      have hzero : ¬(hasAnswer st p.1 p.2 = true ∧ snapshotLookup keys p.1 p.2 = none ∧
          sel p.1 p.2 = true ∧ e = eid ∧ q = p.1 ∧ u = p.2) := by
        rintro ⟨_, _, _, _, h1, h2⟩
        apply hpn
        have : p = (q, u) := by
          apply Prod.ext
          · exact h1.symm
          · exact h2.symm
        rw [this]
        exact hmem
      rw [if_neg hzero, Nat.add_zero]

lemma pairGrid_eq (questions : List Question) (users : List User) :
    pairGrid questions users =
      (questions.map (fun q => q.id)).product (users.map (fun u => u.id)) := by
  unfold pairGrid
  induction questions with
  | nil => rfl
  | cons q qs ih =>
    rw [List.flatMap_cons, List.map_cons]
    rw [show ((q.id :: qs.map (fun q => q.id)).product (users.map (fun u => u.id))) =
      (users.map (fun u => u.id)).map (Prod.mk q.id) ++
        ((qs.map (fun q => q.id)).product (users.map (fun u => u.id))) from rfl]
    rw [← ih, List.map_map]
    rfl

/-- C3: a full reconciliation pass never writes a case row for an
unanswered or whitespace-answered pair (their per-tuple row counts are
exactly preserved), and it preserves the at-most-one-row-per-tuple
invariant the store itself does not guard. -/
theorem C3_selection_invariants (s : Store) (eid : Nat) (questions : List Question)
    (users : List User) (sel : Nat → Nat → Bool)
    (hq : (questions.map (fun q => q.id)).Nodup)
    (hu : (users.map (fun u => u.id)).Nodup)
    (hinv : ∀ e q u, tupleCount s e q u ≤ 1) :
    (∀ q u, hasAnswer s q u = false → ∀ e,
      tupleCount (reconcilePass s eid questions users sel) e q u = tupleCount s e q u) ∧
    (∀ e q u, tupleCount (reconcilePass s eid questions users sel) e q u ≤ 1) := by
  have hnodup : (pairGrid questions users).Nodup := by
    rw [pairGrid_eq]
    exact List.Nodup.product hq hu
  have main := reconcile_fold_count (get_experiment_cases s eid) eid sel s
    (pairGrid questions users) s rfl hnodup (fun p _ e => rfl)
  constructor
  · intro q u hna e
    unfold reconcilePass
    rcases main e q u with h | ⟨_, ha, _, _, _⟩
    · exact h
    · rw [hna] at ha
      cases ha
  · intro e q u
    unfold reconcilePass
    rcases main e q u with h | ⟨_, _, hsnap, heid, hcount⟩
    · rw [h]
      exact hinv e q u
    · rw [hcount]
      have hzero : tupleCount s eid q u = 0 := (snapshotLookup_none_iff s eid q u).mp hsnap
      rw [heid, hzero]

/-- C3 witness: experiment 5's pass over one question and two users (user 9
unanswered) creates no row for the unanswered pair and keeps every tuple's
row count at most one. -/
theorem C3_selection_invariants_witness :
    tupleCount (reconcilePass storeC3 5 [qC2] [userC2, userC3]
      (fun _ _ => true)) 5 1 9 = tupleCount storeC3 5 1 9 ∧
    tupleCount (reconcilePass storeC3 5 [qC2] [userC2, userC3]
      (fun _ _ => true)) 5 1 2 ≤ 1 := by
  have h := C3_selection_invariants storeC3 5 [qC2] [userC2, userC3] (fun _ _ => true)
    (by decide) (by decide)
    (fun e q u => Nat.le_trans (List.countP_le_length _) (by decide))
  exact ⟨h.1 1 9 (by decide) 5, h.2 5 1 2⟩

/-- C2 counterexample: for the answered pair (question 1, user 2) with no
existing case row, the checkbox at `false` — a toggle to a new value
relative to the effective default `true` — performs no write at all (the
claim asks for a row holding `false`), while the checkbox at `true` — no
change to the effective value — creates a row (the claim asks for no
write). -/
theorem C2_counterexample :
    reconcilePass storeC2 5 [qC2] [userC2] (fun _ _ => false) = storeC2 ∧
    (reconcilePass storeC2 5 [qC2] [userC2] (fun _ _ => true)).cases =
      [⟨10, 5, 1, 2, true⟩] := by decide

/-- C2 amended: for an answered pair, when a case row exists the code
updates it in place on a changed checkbox and writes nothing on an
unchanged one; when no row exists it creates a selected row exactly when
the checkbox is `true` (a write even though `true` is already the
effective default) and writes nothing when the checkbox is `false`. -/
theorem C2_selection_writes (keys : List ExperimentCase) (eid : Nat)
    (sel : Nat → Nat → Bool) (st : Store) (q u : Nat)
    (ha : hasAnswer st q u = true) :
    (∀ c, snapshotLookup keys q u = some c →
      (sel q u = c.is_selected → reconcileStep keys eid sel st (q, u) = st) ∧
      (sel q u ≠ c.is_selected →
        (reconcileStep keys eid sel st (q, u)).cases =
          st.cases.map (fun c' =>
            if c'.id == c.id then { c' with is_selected := sel q u } else c') ∧
        (reconcileStep keys eid sel st (q, u)).cases.length = st.cases.length ∧
        (reconcileStep keys eid sel st (q, u)).answers = st.answers ∧
        (reconcileStep keys eid sel st (q, u)).nextId = st.nextId)) ∧
    (snapshotLookup keys q u = none →
      (sel q u = true →
        (reconcileStep keys eid sel st (q, u)).cases =
          st.cases ++ [⟨st.nextId, eid, q, u, true⟩]) ∧
      (sel q u = false → reconcileStep keys eid sel st (q, u) = st)) := by
  unfold reconcileStep
  rw [if_pos ha]
  constructor
  · intro c hc
    rw [hc]
    dsimp only
    constructor
    · intro hs
      rw [if_neg (fun hne => hne hs)]
    · intro hs
      rw [if_pos hs]
      refine ⟨rfl, ?_, rfl, rfl⟩
      unfold update_experiment_case_selection
      exact (List.length_map _ _).symm ▸ rfl
  · intro hc
    rw [hc]
    dsimp only
    constructor
    · intro hs
      rw [if_pos hs, hs]
      rfl
    · intro hs
      rw [if_neg (by rw [hs]; exact Bool.false_ne_true)]

/-- C2 witness: the amended behaviour at the concrete answered pair of
`storeC2` with no existing row — checkbox `false` writes nothing, checkbox
`true` appends the row `⟨10, 5, 1, 2, true⟩`. -/
theorem C2_selection_writes_witness :
    reconcileStep [] 5 (fun _ _ => false) storeC2 (1, 2) = storeC2 ∧
    (reconcileStep [] 5 (fun _ _ => true) storeC2 (1, 2)).cases =
      storeC2.cases ++ [⟨10, 5, 1, 2, true⟩] := by
  have h1 := C2_selection_writes [] 5 (fun _ _ => false) storeC2 1 2 (by decide)
  have h2 := C2_selection_writes [] 5 (fun _ _ => true) storeC2 1 2 (by decide)
  exact ⟨(h1.2 rfl).2 rfl, (h2.2 rfl).1 rfl⟩

/-! ### The joined selected case set (C4) -/

/-- C4 counterexample: a selected case whose answer row exists with the
empty string is NOT excluded from the joined set — the join only drops a
case when its answer row (or question or user row) is missing, and never
inspects the answer's text. -/
theorem C4_counterexample :
    (get_selected_experiment_cases_with_data storeC4 7).length = 1 ∧
    (get_selected_experiment_cases_with_data storeC4 7).map
      (fun cr => cr.answer.answer_text) = [""] := by decide

/-- C4 amended: the joined set holds exactly the experiment's
`is_selected` cases that resolve to an existing question, user and answer
row (each silently skipped — never an error — when missing, which is
where selected-but-deleted answers drop out); an answer row that exists
with empty text is included, its emptiness being filtered upstream in the
selection UI instead. -/
theorem C4_joined_set (s : Store) (eid : Nat) :
    (∀ cr, cr ∈ get_selected_experiment_cases_with_data s eid ↔
      (cr.case ∈ s.cases ∧ cr.case.experiment_id = eid ∧ cr.case.is_selected = true ∧
       lookupQuestion s cr.case.question_id = some cr.question ∧
       get_user_by_id s cr.case.user_id = some cr.user ∧
       get_answer_by_question_and_user s cr.case.question_id cr.case.user_id =
         some cr.answer ∧
       cr.followup_questions = get_followups_by_answer s cr.answer.id)) ∧
    (∀ c ∈ s.cases, c.experiment_id = eid → c.is_selected = true →
      get_answer_by_question_and_user s c.question_id c.user_id = none →
      ∀ cr ∈ get_selected_experiment_cases_with_data s eid, cr.case ≠ c) := by
  refine ⟨mem_get_selected_iff s eid, ?_⟩
  intro c _ _ _ hnone cr hcr hcase
  have hjoin := (mem_get_selected_iff s eid cr).mp hcr
  rw [hcase] at hjoin
  rw [hnone] at hjoin
  exact Option.noConfusion hjoin.2.2.2.2.2.1

end PocFollowup
